import Mathlib

/-!
Shallow embedding of the HTTP VCR proxy (`src/http_vcr.go`).

The repository source under `src/` contains the proxy orchestration
(`HttpVcr`, `NewHttpVcr`, `handler`, `handleErrorInHandler`,
`InitializeServer`, `getResponseFromRemote`,
`getNextRecordedCassetteResponse`).  The Recorder, Replayer and the
serializable request/response types are referenced by that file but their
code is not under `src/`; those parts are modelled from the spec and say
so in their doc comments.

Conventions of the embedding:
- HTTP bodies are byte sequences, modelled as `List Nat`.
- Header maps are association lists; `get` returns the first value for a
  key and the empty string when the key is absent, matching Go
  `http.Header.Get`.
- The Go `http.ResponseWriter` is modelled as a state machine in which
  the header map snapshot taken at the first `WriteHeader` call is what
  reaches the caller: mutating the header map afterwards has no effect
  on the wire, exactly as in Go net/http.  (Go would additionally sniff
  a default Content-Type when none was set; the model renders an unset
  header as the empty string, which preserves every inequality we prove.)
- The handler is embedded as a function producing the ordered list of
  externally visible events (response-writer calls, recorder appends,
  console prints), so ordering claims can be stated about the trace.
- The filesystem touched by `NewHttpVcr` (os.Stat / os.Remove and the
  cassette files) is an explicit `Fs` value threaded through the
  constructor.
-/

namespace StripeVcr

/-- Association-list header map, as used by Go `http.Header` restricted to
single-valued access. -/
abbrev HeaderMap := List (String × String)

/-- Go `http.Header.Get`: first value stored for the key, empty string when
absent. -/
def HeaderMap.get (h : HeaderMap) (k : String) : String :=
  match h.find? (fun q => q.1 == k) with
  | some q => q.2
  | none => ""

/-- Go `http.Header.Set`: replace every value of the key with the single
given value. -/
def HeaderMap.set (h : HeaderMap) (k v : String) : HeaderMap :=
  (k, v) :: h.filter (fun q => q.1 != k)

/-- Go `http.Header.Add`: append a value for the key. -/
def HeaderMap.add (h : HeaderMap) (k v : String) : HeaderMap :=
  h ++ [(k, v)]

/-- The inbound `*http.Request` as the handler uses it: method, RequestURI,
headers and a buffered body. -/
structure HttpRequestM where
  method : String
  requestURI : String
  header : HeaderMap
  body : List Nat
  deriving DecidableEq

/-- The `*http.Response` as the handler uses it: status code, headers and a
buffered body. -/
structure HttpResponseM where
  statusCode : Nat
  header : HeaderMap
  body : List Nat
  deriving DecidableEq

/-- Modelled from the spec: `SerializableRequest` is
`\x7b method, uri, headers, body \x7d`; the concrete Go type
(`HttpRequestSerializable`) is not under `src/`. -/
structure SerializableRequest where
  method : String
  uri : String
  headers : HeaderMap
  body : List Nat
  deriving DecidableEq

/-- Modelled from the spec: `SerializableResponse` is
`\x7b statusCode, headers, body \x7d`; the concrete Go type
(`HttpResponseSerializable`) is not under `src/`. -/
structure SerializableResponse where
  statusCode : Nat
  headers : HeaderMap
  body : List Nat
  deriving DecidableEq

/-- Modelled from the spec: lossless conversion of the live request into its
serializable form (`NewSerializableHttpRequest` is not under `src/`). -/
def NewSerializableHttpRequest (r : HttpRequestM) : SerializableRequest :=
  { method := r.method, uri := r.requestURI, headers := r.header, body := r.body }

/-- Modelled from the spec: lossless conversion of the live response into its
serializable form (`NewSerializableHttpResponse` is not under `src/`). -/
def NewSerializableHttpResponse (resp : HttpResponseM) : SerializableResponse :=
  { statusCode := resp.statusCode, headers := resp.header, body := resp.body }

/-- Modelled from the spec: lossless conversion back from the serializable
form to a live response, as replay requires. -/
def responseFromSerializable (s : SerializableResponse) : HttpResponseM :=
  { statusCode := s.statusCode, header := s.headers, body := s.body }

/-- One recorded (request, response) pair. -/
structure Interaction where
  request : SerializableRequest
  response : SerializableResponse
  deriving DecidableEq

/-- Modelled from the spec: Recorder state
`\x7b targetPath, openHandle, interactions written \x7d` (`VcrRecorder` is
not under `src/`).  `written` is the ordered sequence of appended
interactions. -/
structure VcrRecorder where
  path : String
  isOpen : Bool
  written : List Interaction
  deriving DecidableEq

/-- Modelled from the spec: `Append` serializes the pair and commits it
before returning; after `Close`, further appends fail with
`RecorderClosed`. -/
def VcrRecorder.write (rec : VcrRecorder) (req : SerializableRequest)
    (resp : SerializableResponse) : Except String VcrRecorder :=
  if rec.isOpen then
    Except.ok { rec with written := rec.written ++ [{ request := req, response := resp }] }
  else
    Except.error "RecorderClosed"

/-- Modelled from the spec: `Close` finalizes the file and accepts no
further writes. -/
def VcrRecorder.close (rec : VcrRecorder) : VcrRecorder :=
  { rec with isOpen := false }

/-- Modelled from the spec: Replayer state holds the loaded cassette with
consumption marks; consumed interactions are removed from the remaining
list (`VcrReplayer` is not under `src/`). -/
structure VcrReplayer where
  interactions : List Interaction
  deriving DecidableEq

/-- The default sequential comparator, from `NewHttpVcr` in
`src/http_vcr.go`: it returns accept and short-circuit for every pair of
arguments. -/
def sequentialComparator {α β : Type} (req1 : α) (req2 : β) : Bool × Bool :=
  (true, true)

/-- Replay resolution errors, from the spec error taxonomy. -/
inductive ReplayError
  | noMatch
  | exhausted
  deriving DecidableEq

/-- Modelled from the spec: the diagnostic detail carried by a replay
failure. -/
def ReplayError.msg : ReplayError → String
  | ReplayError.noMatch => "no recorded interaction matched the request (NoMatch)"
  | ReplayError.exhausted => "all recorded interactions already consumed (Exhausted)"

/-- Modelled from the spec (4.4): scan the unconsumed interactions in
order, invoking the comparator on each; on accept return the matched
interaction and the remaining list with it removed; on short-circuit
without accept, stop scanning. -/
def scanInteractions (comp : SerializableRequest → Interaction → Bool × Bool)
    (req : SerializableRequest) : List Interaction → Option (Interaction × List Interaction)
  | [] => none
  | i :: rest =>
    match comp req i with
    | (true, _) => some (i, rest)
    | (false, true) => none
    | (false, false) =>
      match scanInteractions comp req rest with
      | none => none
      | some (m, remaining) => some (m, i :: remaining)

/-- Modelled from the spec (4.4): `Resolve` fails with `Exhausted` when no
unconsumed interaction remains, with `NoMatch` when the scan accepts
nothing, and otherwise consumes the matched interaction and returns its
response.  The source calls this entry point `replayer.Write`. -/
def VcrReplayer.write (comp : SerializableRequest → Interaction → Bool × Bool)
    (rp : VcrReplayer) (req : SerializableRequest) :
    Except ReplayError (SerializableResponse × VcrReplayer) :=
  match rp.interactions with
  | [] => Except.error ReplayError.exhausted
  | _ :: _ =>
    match scanInteractions comp req rp.interactions with
    | none => Except.error ReplayError.noMatch
    | some (m, remaining) => Except.ok (m.response, { interactions := remaining })

/-- The filesystem as `NewHttpVcr` touches it: cassette files (path to
decoded interaction list), plus which paths fail `os.Remove` and which
fail creation, so the error branches of the source are reachable in the
model. -/
structure Fs where
  files : List (String × List Interaction)
  removeFails : List String
  createFails : List String
  deriving DecidableEq

/-- Decoded content of the cassette file at a path, when present. -/
def Fs.lookup (fs : Fs) (p : String) : Option (List Interaction) :=
  match fs.files.find? (fun q => q.1 == p) with
  | some q => some q.2
  | none => none

/-- `os.Stat` success at the path (the file exists). -/
def Fs.statExists (fs : Fs) (p : String) : Bool :=
  (Fs.lookup fs p).isSome

/-- `os.Remove` effect on the file table. -/
def Fs.removeFile (fs : Fs) (p : String) : Fs :=
  { fs with files := fs.files.filter (fun q => q.1 != p) }

/-- Creation of a fresh empty cassette file at the path. -/
def Fs.createFile (fs : Fs) (p : String) : Fs :=
  { fs with files := (p, []) :: fs.files }

/-- The session error values surfaced by `NewHttpVcr`, from the spec error
taxonomy: `fileNotFound` for a missing REPLAY cassette, `ioError` for file
create/remove failure. -/
inductive VcrError
  | fileNotFound
  | ioError
  deriving DecidableEq

/-- Modelled from the spec (4.2): `Create(path)` starts a fresh empty
cassette at the path and returns an open Recorder, failing with IOError
when the path cannot be created (`NewRecorder` is not under `src/`). -/
def NewRecorder (fs : Fs) (filepath : String) : Except VcrError (VcrRecorder × Fs) :=
  if filepath ∈ fs.createFails then
    Except.error VcrError.ioError
  else
    Except.ok ({ path := filepath, isOpen := true, written := [] }, Fs.createFile fs filepath)

/-- Modelled from the spec (4.4): `NewReplayer` loads the whole cassette at
the path into memory once (`NewReplayer` is not under `src/`; decode
failure `MalformedCassette` is not modelled since no claim depends on
it). -/
def NewReplayer (fs : Fs) (filepath : String) : Except VcrError VcrReplayer :=
  match Fs.lookup fs filepath with
  | none => Except.error VcrError.fileNotFound
  | some ints => Except.ok { interactions := ints }

/-- The session value, from `type HttpVcr struct` in `src/http_vcr.go`.
The Go pointer fields `recorder *VcrRecorder` and `replayer *VcrReplayer`
are rendered as options, `none` standing for the nil pointer. -/
structure HttpVcr where
  recorder : Option VcrRecorder
  replayer : Option VcrReplayer
  recordMode : Bool
  remoteURL : String

/-- `NewHttpVcr` from `src/http_vcr.go`: in record mode, stat the path,
remove a pre-existing file (propagating a removal failure), then create
the Recorder; in replay mode, fail when the path does not exist
(`os.IsNotExist` on the stat error), otherwise build the Replayer over the
loaded cassette with the sequential comparator. -/
def NewHttpVcr (fs : Fs) (filepath : String) (recordMode : Bool) (remoteURL : String) :
    Except VcrError (HttpVcr × Fs) :=
  if recordMode then
    if Fs.statExists fs filepath then
      if filepath ∈ fs.removeFails then
        Except.error VcrError.ioError
      else
        match NewRecorder (Fs.removeFile fs filepath) filepath with
        | Except.error e => Except.error e
        | Except.ok (rec, fs2) =>
          Except.ok ({ recorder := some rec, replayer := none,
                       recordMode := true, remoteURL := remoteURL }, fs2)
    else
      match NewRecorder fs filepath with
      | Except.error e => Except.error e
      | Except.ok (rec, fs2) =>
        Except.ok ({ recorder := some rec, replayer := none,
                     recordMode := true, remoteURL := remoteURL }, fs2)
  else
    if Fs.statExists fs filepath then
      match NewReplayer fs filepath with
      | Except.error e => Except.error e
      | Except.ok rp =>
        Except.ok ({ recorder := none, replayer := some rp,
                     recordMode := false, remoteURL := remoteURL }, fs)
    else
      Except.error VcrError.fileNotFound

/-- Externally visible events of one handler invocation, in program
order: calls on the response writer, the recorder append, console
prints, and a nil-pointer dereference (Go runtime panic). -/
inductive HEvent
  | respWriteHeader (code : Nat)
  | respSetHeader (k v : String)
  | respWriteBody (b : List Nat)
  | recorderAppend (req : SerializableRequest) (resp : SerializableResponse)
  | consoleLog (m : String)
  | panicNilDeref
  deriving DecidableEq

/-- `handleErrorInHandler` from `src/http_vcr.go`: returns at once on a nil
error; otherwise writes status 500 to the response writer and prints the
error to the console.  Nothing is written to the response body. -/
def handleErrorInHandler (err : Option String) : List HEvent :=
  match err with
  | none => []
  | some e => [HEvent.respWriteHeader 500, HEvent.consoleLog ("<-- 500 error: " ++ e)]

/-- The response-transfer block of `handler` in `src/http_vcr.go`, in
source order: `w.WriteHeader(resp.StatusCode)`, then
`w.Header().Set("Content-Type", ...)`, `w.Header().Set("Content-Length", ...)`,
then the body copy `io.Copy(w, bytes.NewBuffer(bodyBytes))`. -/
def respTransferEvents (resp : HttpResponseM) : List HEvent :=
  [HEvent.respWriteHeader resp.statusCode,
   HEvent.respSetHeader "Content-Type" (HeaderMap.get resp.header "Content-Type"),
   HEvent.respSetHeader "Content-Length" (HeaderMap.get resp.header "Content-Length"),
   HEvent.respWriteBody resp.body]

/-- `handler` from `src/http_vcr.go` as one step over the session state.
`fetch` is the outcome of the remote round trip (`getResponseFromRemote`),
only consulted in record mode; in replay mode the response comes from
`getNextRecordedCassetteResponse`, i.e. `replayer.Write` with the
sequential comparator bound at construction.  The returned event list is
the ordered trace of the invocation; in record mode the response transfer
to the caller precedes the `recorder.Write` call, exactly as in the
source.  A method call through a nil pointer is the `panicNilDeref`
event. -/
def handlerStep (vcr : HttpVcr) (fetch : Except String HttpResponseM) (r : HttpRequestM) :
    HttpVcr × List HEvent :=
  if vcr.recordMode then
    match fetch with
    | Except.error e => (vcr, handleErrorInHandler (some e))
    | Except.ok resp =>
      match vcr.recorder with
      | none => (vcr, [HEvent.panicNilDeref])
      | some rec =>
        match VcrRecorder.write rec (NewSerializableHttpRequest r)
            (NewSerializableHttpResponse resp) with
        | Except.ok rec2 =>
          ({ vcr with recorder := some rec2 },
           respTransferEvents resp
             ++ [HEvent.recorderAppend (NewSerializableHttpRequest r)
                   (NewSerializableHttpResponse resp)])
        | Except.error e =>
          (vcr, respTransferEvents resp ++ handleErrorInHandler (some e))
  else
    match vcr.replayer with
    | none => (vcr, [HEvent.panicNilDeref])
    | some rp =>
      match VcrReplayer.write sequentialComparator rp (NewSerializableHttpRequest r) with
      | Except.error e => (vcr, handleErrorInHandler (some (ReplayError.msg e)))
      | Except.ok (sresp, rp2) =>
        ({ vcr with replayer := some rp2 },
         respTransferEvents (responseFromSerializable sresp))

/-- Go `http.ResponseWriter` state: the mutable header map, the status and
header-map snapshot taken at the first `WriteHeader` call (what actually
reaches the wire), and the body bytes written so far. -/
structure ResponseWriter where
  header : HeaderMap
  wrote : Option (Nat × HeaderMap)
  body : List Nat
  deriving DecidableEq

/-- A response writer before anything is written. -/
def freshWriter : ResponseWriter :=
  { header := [], wrote := none, body := [] }

/-- `w.Header().Set(k, v)`: always mutates the map; the mutation reaches
the caller only if `WriteHeader` has not run yet. -/
def ResponseWriter.setHeader (w : ResponseWriter) (k v : String) : ResponseWriter :=
  { w with header := HeaderMap.set w.header k v }

/-- `w.WriteHeader(code)`: on the first call, snapshots the current header
map and fixes the status; later calls are superfluous and ignored. -/
def ResponseWriter.writeHeader (w : ResponseWriter) (code : Nat) : ResponseWriter :=
  match w.wrote with
  | some _ => w
  | none => { w with wrote := some (code, w.header) }

/-- `w.Write(b)` / `io.Copy(w, ...)`: an implicit `WriteHeader(200)` when
none has run, then the bytes are appended to the body. -/
def ResponseWriter.writeBody (w : ResponseWriter) (b : List Nat) : ResponseWriter :=
  let w2 := ResponseWriter.writeHeader w 200
  { w2 with body := w2.body ++ b }

/-- The status code the caller receives. -/
def ResponseWriter.sentStatus (w : ResponseWriter) : Nat :=
  match w.wrote with
  | some p => p.1
  | none => 200

/-- The headers the caller receives: the snapshot at the first
`WriteHeader`. -/
def ResponseWriter.sentHeaders (w : ResponseWriter) : HeaderMap :=
  match w.wrote with
  | some p => p.2
  | none => []

/-- Apply one handler event to the response writer; recorder appends and
console prints do not touch it. -/
def applyEvent (w : ResponseWriter) : HEvent → ResponseWriter
  | HEvent.respWriteHeader code => ResponseWriter.writeHeader w code
  | HEvent.respSetHeader k v => ResponseWriter.setHeader w k v
  | HEvent.respWriteBody b => ResponseWriter.writeBody w b
  | HEvent.recorderAppend _ _ => w
  | HEvent.consoleLog _ => w
  | HEvent.panicNilDeref => w

/-- Run a handler trace against a response writer. -/
def runEvents (w : ResponseWriter) : List HEvent → ResponseWriter
  | [] => w
  | e :: rest => runEvents (applyEvent w e) rest

/-- The console lines printed during a trace. -/
def consoleOutput (evs : List HEvent) : List String :=
  evs.filterMap (fun e =>
    match e with
    | HEvent.consoleLog m => some m
    | _ => none)

/-- Serve a sequence of requests (each with its remote-fetch outcome)
through successive handler invocations, collecting one trace per
request. -/
def serveRequests (vcr : HttpVcr) :
    List (Except String HttpResponseM × HttpRequestM) → HttpVcr × List (List HEvent)
  | [] => (vcr, [])
  | (fetch, r) :: rest =>
    let step := handlerStep vcr fetch r
    let tail := serveRequests step.1 rest
    (tail.1, step.2 :: tail.2)

/-- The outbound `*http.Request` that `getResponseFromRemote` builds before
`client.Do`. -/
structure OutboundRequest where
  method : String
  url : String
  header : HeaderMap
  body : Option (List Nat)
  deriving DecidableEq

/-- The request-construction part of `getResponseFromRemote` in
`src/http_vcr.go`: `http.NewRequest(request.Method,
httpVcr.remoteURL+request.RequestURI, nil)` followed by
`req.Header.Add("Authorization", request.Header.Get("Authorization"))`. -/
def getResponseFromRemoteRequest (vcr : HttpVcr) (request : HttpRequestM) : OutboundRequest :=
  let req : OutboundRequest :=
    { method := request.method, url := vcr.remoteURL ++ request.requestURI,
      header := [], body := none }
  { req with
    header :=
      HeaderMap.add req.header "Authorization"
        (HeaderMap.get request.header "Authorization") }

/-- The two handlers registered on the mux in `InitializeServer`. -/
inductive HandlerId
  | stopHandler
  | vcrHandler
  deriving DecidableEq

/-- The `http.Server` with its mux registrations as `InitializeServer`
builds them: address plus the ordered pattern table. -/
structure Server where
  addr : String
  routes : List (String × HandlerId)
  deriving DecidableEq

/-- `InitializeServer` from `src/http_vcr.go`: a fresh mux with the
control path `/vcr/stop` and the catch-all pattern `/` bound to the VCR
handler. -/
def InitializeServer (address : String) : Server :=
  { addr := address,
    routes := [("/vcr/stop", HandlerId.stopHandler), ("/", HandlerId.vcrHandler)] }

/-- Go `ServeMux` dispatch restricted to the registered patterns: the
pattern `/vcr/stop` (no trailing slash) matches only that exact path, and
the pattern `/` matches every path as the fallback. -/
def muxDispatch (s : Server) (path : String) : Option HandlerId :=
  match s.routes.find? (fun q => q.1 == path) with
  | some q => some q.2
  | none =>
    match s.routes.find? (fun q => q.1 == "/") with
    | some q => some q.2
    | none => none

/-- Outcome of the `/vcr/stop` handler body. -/
inductive StopOutcome
  | closed
  | nilPanic
  deriving DecidableEq

/-- The `/vcr/stop` handler body from `InitializeServer` in
`src/http_vcr.go`: it calls `httpVcr.recorder.Close()` unconditionally,
with no mode or nil check.  `Close` finalizes the recorder file handle
(modelled from the spec), so the call through a nil recorder pointer is a
nil dereference panic. -/
def stopHandlerStep (vcr : HttpVcr) : HttpVcr × StopOutcome :=
  match vcr.recorder with
  | none => (vcr, StopOutcome.nilPanic)
  | some rec => ({ vcr with recorder := some (VcrRecorder.close rec) }, StopOutcome.closed)

/-- Serving `/vcr/stop`: the handler closure touches only the session
recorder; the server value (address and mux table) is returned as it
was received, mirroring that the closure body contains no server or mux
mutation. -/
def handleStop (vcr : HttpVcr) (s : Server) : HttpVcr × Server × StopOutcome :=
  ((stopHandlerStep vcr).1, s, (stopHandlerStep vcr).2)

/-- Mode exclusivity invariant of a session: the recorder pointer is live
exactly in record mode and the replayer pointer exactly in replay mode. -/
def modeInv (v : HttpVcr) : Prop :=
  v.recorder.isSome = v.recordMode ∧ v.replayer.isSome = !v.recordMode

/-- The UTF-32 code points of a string, for stating that a byte body
contains a diagnostic text. -/
def strBytes (s : String) : List Nat :=
  s.toList.map Char.toNat

/-- Concrete inbound request used by the concrete evaluations. -/
def req0 : HttpRequestM :=
  { method := "GET", requestURI := "/ping",
    header := [("Authorization", "Bearer key123")], body := [] }

/-- Concrete upstream response (200, JSON content type, body
`\x7b"ok":true\x7d`) used by the concrete evaluations. -/
def resp0 : HttpResponseM :=
  { statusCode := 200, header := [("Content-Type", "application/json")],
    body := [123, 34, 111, 107, 34, 58, 116, 114, 117, 101, 125] }

/-- Concrete open recorder used by the concrete evaluations. -/
def rec0 : VcrRecorder :=
  { path := "main_result.yaml", isOpen := true, written := [] }

/-- Concrete record-mode session used by the concrete evaluations. -/
def vcrRec0 : HttpVcr :=
  { recorder := some rec0, replayer := none,
    recordMode := true, remoteURL := "https://api.stripe.com" }

/-- Concrete replay-mode session over an already-exhausted (empty)
cassette, used by the concrete evaluations. -/
def vcrReplay0 : HttpVcr :=
  { recorder := none, replayer := some { interactions := [] },
    recordMode := false, remoteURL := "https://api.stripe.com" }

/-- Concrete filesystem with no file at the cassette path. -/
def fsEmpty : Fs :=
  { files := [], removeFails := [], createFails := [] }

/-- Concrete filesystem holding a pre-existing cassette with one recorded
interaction at `c.yaml`. -/
def fsPre : Fs :=
  { files := [("c.yaml",
      [{ request := NewSerializableHttpRequest req0,
         response := NewSerializableHttpResponse resp0 }])],
    removeFails := [], createFails := [] }

/-- Concrete filesystem holding an empty cassette at `c.yaml`. -/
def fsReplay : Fs :=
  { files := [("c.yaml", [])], removeFails := [], createFails := [] }

/-- The session a successful replay construction over `fsReplay`
produces. -/
def vcrReplayBuilt : HttpVcr :=
  { recorder := none, replayer := some { interactions := [] },
    recordMode := false, remoteURL := "https://api.stripe.com" }

/-- The session a successful record construction over `fsEmpty` at
`c.yaml` produces. -/
def vcrRecBuilt : HttpVcr :=
  { recorder := some { path := "c.yaml", isOpen := true, written := [] },
    replayer := none, recordMode := true, remoteURL := "https://api.stripe.com" }

/-- The filesystem after that record construction over `fsEmpty`. -/
def fsRecBuilt : Fs :=
  { files := [("c.yaml", [])], removeFails := [], createFails := [] }

/-- C1: refuted on the code.  For the concrete record-mode request `req0`
with upstream response `resp0` (status 200, Content-Type
`application/json`), the response the caller receives has the upstream
status code and the upstream body bytes, but its Content-Type header is
empty and differs from the upstream value: the handler calls
`WriteHeader` before `Header().Set("Content-Type", ...)`, and headers set
after `WriteHeader` never reach the wire. -/
theorem C1_contentType_not_propagated :
    ResponseWriter.sentStatus
        (runEvents freshWriter (handlerStep vcrRec0 (Except.ok resp0) req0).2)
      = resp0.statusCode
    ∧ (runEvents freshWriter (handlerStep vcrRec0 (Except.ok resp0) req0).2).body
      = resp0.body
    ∧ HeaderMap.get
        (ResponseWriter.sentHeaders
          (runEvents freshWriter (handlerStep vcrRec0 (Except.ok resp0) req0).2))
        "Content-Type"
      = ""
    ∧ HeaderMap.get resp0.header "Content-Type" = "application/json" := by
  exact ⟨rfl, rfl, rfl, rfl⟩

/-- C2: refuted on the code.  For the concrete record-mode request `req0`
with upstream response `resp0`, the handler trace writes the status and
the body to the caller first and performs the recorder append last: the
`recorderAppend` event follows the `respWriteBody` event, while the claim
(and the spec) put the append before the write-back.  The append does
occur within the trace, i.e. before the handler returns. -/
theorem C2_append_after_response_write :
    (handlerStep vcrRec0 (Except.ok resp0) req0).2
      = [HEvent.respWriteHeader 200,
         HEvent.respSetHeader "Content-Type" "application/json",
         HEvent.respSetHeader "Content-Length" "",
         HEvent.respWriteBody resp0.body,
         HEvent.recorderAppend (NewSerializableHttpRequest req0)
           (NewSerializableHttpResponse resp0)] := by
  exact rfl

/-- C3: the default sequential comparator returns accept and
short-circuit for every pair of arguments, and replay resolution under it
is independent of the incoming request: any two requests presented to the
same replayer state yield the same result (same matched response, same
successor state, or the same failure). -/
theorem C3_sequential_comparator_ignores_request :
    (∀ (a : SerializableRequest) (b : Interaction),
        sequentialComparator a b = (true, true))
    ∧ ∀ (rp : VcrReplayer) (r1 r2 : SerializableRequest),
        VcrReplayer.write sequentialComparator rp r1
          = VcrReplayer.write sequentialComparator rp r2 := by
  refine ⟨fun a b => rfl, fun rp r1 r2 => ?_⟩
  cases rp with
  | mk ints =>
    cases ints with
    | nil => rfl
    | cons i rest => rfl

/-- C4: constructing a session in REPLAY mode over a filesystem with no
file at the cassette path fails with the FileNotFound error; the
constructor returns no session value, so no Replayer exists and no
request can be served. -/
theorem C4_replay_missing_file_fails :
    ∀ (fs : Fs) (path url : String), Fs.statExists fs path = false →
      NewHttpVcr fs path false url = Except.error VcrError.fileNotFound := by
  intro fs path url h
  simp [NewHttpVcr, h]

/-- C4 witness: the empty filesystem has no file at `c.yaml`, and replay
construction there fails with FileNotFound. -/
theorem C4_replay_missing_file_fails_witness :
    NewHttpVcr fsEmpty "c.yaml" false "https://api.stripe.com"
      = Except.error VcrError.fileNotFound :=
  C4_replay_missing_file_fails fsEmpty "c.yaml" "https://api.stripe.com" rfl

/-- C7: in record mode, the outbound request built by
`getResponseFromRemote` uses the inbound method, targets the configured
base URL concatenated with the inbound URI suffix, and carries the
inbound Authorization header value. -/
theorem C7_outbound_request_fields :
    ∀ (vcr : HttpVcr) (r : HttpRequestM),
      (getResponseFromRemoteRequest vcr r).method = r.method
      ∧ (getResponseFromRemoteRequest vcr r).url = vcr.remoteURL ++ r.requestURI
      ∧ HeaderMap.get (getResponseFromRemoteRequest vcr r).header "Authorization"
          = HeaderMap.get r.header "Authorization" := by
  intro vcr r
  exact ⟨rfl, rfl, rfl⟩

/-- C5: constructing a session in RECORD mode at a path holding a
pre-existing file removes it before the recorder is created — when
removal and creation succeed, construction succeeds and the cassette file
at the path is empty, whatever it held before — and construction fails
with the IOError when the pre-existing file cannot be removed. -/
theorem C5_record_overwrites_existing :
    ∀ (fs : Fs) (path url : String), Fs.statExists fs path = true →
      (path ∈ fs.removeFails →
        NewHttpVcr fs path true url = Except.error VcrError.ioError)
      ∧ (path ∉ fs.removeFails → path ∉ fs.createFails →
          NewHttpVcr fs path true url
              = Except.ok ({ recorder := some { path := path, isOpen := true, written := [] },
                             replayer := none, recordMode := true, remoteURL := url },
                           Fs.createFile (Fs.removeFile fs path) path)
          ∧ Fs.lookup (Fs.createFile (Fs.removeFile fs path) path) path = some []) := by
  intro fs path url h
  constructor
  · intro hmem
    simp [NewHttpVcr, h, hmem]
  · intro hnr hnc
    constructor
    · simp [NewHttpVcr, h, hnr, NewRecorder, Fs.removeFile, hnc]
    · simp [Fs.lookup, Fs.createFile, List.find?]

/-- C5 witness: `fsPre` holds a one-interaction cassette at `c.yaml` that
can be removed; record construction there succeeds and leaves an empty
cassette at `c.yaml`. -/
theorem C5_record_overwrites_existing_witness :
    NewHttpVcr fsPre "c.yaml" true "https://api.stripe.com"
        = Except.ok ({ recorder := some { path := "c.yaml", isOpen := true, written := [] },
                       replayer := none, recordMode := true,
                       remoteURL := "https://api.stripe.com" },
                     Fs.createFile (Fs.removeFile fsPre "c.yaml") "c.yaml")
    ∧ Fs.lookup (Fs.createFile (Fs.removeFile fsPre "c.yaml") "c.yaml") "c.yaml"
        = some [] :=
  (C5_record_overwrites_existing fsPre "c.yaml" "https://api.stripe.com" rfl).2
    (by decide) (by decide)

/-- C6 counterexample: refutes the claim as stated.  For the concrete
replay-mode session over an exhausted cassette (`vcrReplay0`) and request
`req0`, the caller receives status 500 but an empty body: the failure
reason is a nonempty text that occurs nowhere in the body, because
`handleErrorInHandler` prints the error to the console instead of writing
it to the response. -/
theorem C6_error_body_empty_cex :
    ResponseWriter.sentStatus
        (runEvents freshWriter (handlerStep vcrReplay0 (Except.ok resp0) req0).2)
      = 500
    ∧ (runEvents freshWriter (handlerStep vcrReplay0 (Except.ok resp0) req0).2).body
      = []
    ∧ strBytes (ReplayError.msg ReplayError.exhausted) ≠ []
    ∧ ¬ (∃ pre post,
          (runEvents freshWriter (handlerStep vcrReplay0 (Except.ok resp0) req0).2).body
            = pre ++ strBytes (ReplayError.msg ReplayError.exhausted) ++ post) := by
  refine ⟨rfl, rfl, by decide, ?_⟩
  rintro ⟨pre, post, hh⟩
  have hb : ([] : List Nat)
      = pre ++ strBytes (ReplayError.msg ReplayError.exhausted) ++ post := hh
  have hparts := List.append_eq_nil.mp hb.symm
  have hmid := List.append_eq_nil.mp hparts.1
  have : strBytes (ReplayError.msg ReplayError.exhausted) = [] := hmid.2
  exact absurd this (by decide)

/-- C6 amended: for every per-request failure — the remote fetch failing
in record mode, or replay resolution exhausting the cassette — the
handler responds to that one caller with status 500 and an empty body,
logs the failure reason to the console, and the failure is isolated to
that request: every request in a served sequence receives its own
response trace and serving continues. -/
theorem C6_error_reporting_amended :
    (∀ (m : String),
        ResponseWriter.sentStatus (runEvents freshWriter (handleErrorInHandler (some m))) = 500
        ∧ (runEvents freshWriter (handleErrorInHandler (some m))).body = []
        ∧ consoleOutput (handleErrorInHandler (some m)) = ["<-- 500 error: " ++ m])
    ∧ (∀ (vcr : HttpVcr) (r : HttpRequestM) (m : String), vcr.recordMode = true →
        (handlerStep vcr (Except.error m) r).2 = handleErrorInHandler (some m))
    ∧ (∀ (vcr : HttpVcr) (rp : VcrReplayer) (r : HttpRequestM)
          (fetch : Except String HttpResponseM),
        vcr.recordMode = false → vcr.replayer = some rp → rp.interactions = [] →
        (handlerStep vcr fetch r).2
          = handleErrorInHandler (some (ReplayError.msg ReplayError.exhausted)))
    ∧ (∀ (vcr : HttpVcr) (inputs : List (Except String HttpResponseM × HttpRequestM)),
        ((serveRequests vcr inputs).2).length = inputs.length) := by
  refine ⟨fun m => ⟨rfl, rfl, rfl⟩, ?_, ?_, ?_⟩
  · intro vcr r m h
    simp [handlerStep, h]
  · intro vcr rp r fetch h1 h2 h3
    simp [handlerStep, h1, h2, VcrReplayer.write, h3]
  · intro vcr inputs
    induction inputs generalizing vcr with
    | nil => rfl
    | cons p rest ih =>
      cases p with
      | mk fetch r => simp [serveRequests, ih]

/-- C6 amended witness: the console line for the failure reason `boom`
and the exhausted-replay trace of the concrete session `vcrReplay0`. -/
theorem C6_error_reporting_amended_witness :
    consoleOutput (handleErrorInHandler (some "boom")) = ["<-- 500 error: boom"]
    ∧ (handlerStep vcrReplay0 (Except.ok resp0) req0).2
        = handleErrorInHandler (some (ReplayError.msg ReplayError.exhausted)) :=
  ⟨(C6_error_reporting_amended.1 "boom").2.2,
   C6_error_reporting_amended.2.2.1 vcrReplay0 { interactions := [] } req0
     (Except.ok resp0) rfl rfl rfl⟩

/-- C8: serving `/vcr/stop` on a session whose recorder is live closes
that recorder and leaves the listening server untouched: the server value
(address and mux registrations) equals the one `InitializeServer` built,
and every other path still dispatches to the VCR catch-all handler
afterwards. -/
theorem C8_stop_leaves_server_running :
    ∀ (a : String) (vcr : HttpVcr) (rec : VcrRecorder), vcr.recorder = some rec →
      (handleStop vcr (InitializeServer a)).2.1 = InitializeServer a
      ∧ (handleStop vcr (InitializeServer a)).2.2 = StopOutcome.closed
      ∧ ((handleStop vcr (InitializeServer a)).1).recorder = some (VcrRecorder.close rec)
      ∧ ∀ (p : String), ¬ (p = "/vcr/stop") →
          muxDispatch ((handleStop vcr (InitializeServer a)).2.1) p
            = some HandlerId.vcrHandler := by
  intro a vcr rec h
  refine ⟨rfl, ?_, ?_, ?_⟩
  · simp [handleStop, stopHandlerStep, h]
  · simp [handleStop, stopHandlerStep, h]
  · intro p hp
    have h1 : (("/vcr/stop" : String) == p) = false := by
      apply beq_eq_false_iff_ne.mpr
      intro he
      exact hp he.symm
    by_cases h2 : p = "/"
    · subst h2
      simp [handleStop, muxDispatch, InitializeServer, List.find?, h1]
    · have h3 : (("/" : String) == p) = false := by
        apply beq_eq_false_iff_ne.mpr
        intro he
        exact h2 he.symm
      simp [handleStop, muxDispatch, InitializeServer, List.find?, h1, h3]

/-- C8 witness: stopping the concrete record-mode session `vcrRec0` behind
the server at `localhost:8080` leaves the server value unchanged and a
later request for `/ping` still dispatches to the VCR handler. -/
theorem C8_stop_leaves_server_running_witness :
    (handleStop vcrRec0 (InitializeServer "localhost:8080")).2.1
        = InitializeServer "localhost:8080"
    ∧ muxDispatch ((handleStop vcrRec0 (InitializeServer "localhost:8080")).2.1) "/ping"
        = some HandlerId.vcrHandler :=
  ⟨(C8_stop_leaves_server_running "localhost:8080" vcrRec0 rec0 rfl).1,
   (C8_stop_leaves_server_running "localhost:8080" vcrRec0 rec0 rfl).2.2.2 "/ping"
     (by decide)⟩

/-- C9: every session the constructor returns successfully is in exactly
one mode — the recorder is live exactly when recordMode is set and the
replayer exactly when it is not — and neither a handler invocation nor
the stop handler changes the mode or the liveness of either component,
so Recorder and Replayer are never both live within one session. -/
theorem C9_mode_exclusivity :
    (∀ (fs : Fs) (path : String) (mode : Bool) (url : String) (vcr : HttpVcr) (fs2 : Fs),
        NewHttpVcr fs path mode url = Except.ok (vcr, fs2) →
        vcr.recordMode = mode ∧ modeInv vcr)
    ∧ (∀ (v : HttpVcr) (fetch : Except String HttpResponseM) (r : HttpRequestM),
        ((handlerStep v fetch r).1).recordMode = v.recordMode
        ∧ ((handlerStep v fetch r).1).recorder.isSome = v.recorder.isSome
        ∧ ((handlerStep v fetch r).1).replayer.isSome = v.replayer.isSome)
    ∧ (∀ (v : HttpVcr),
        ((stopHandlerStep v).1).recordMode = v.recordMode
        ∧ ((stopHandlerStep v).1).recorder.isSome = v.recorder.isSome
        ∧ ((stopHandlerStep v).1).replayer.isSome = v.replayer.isSome) := by
  refine ⟨?_, ?_, ?_⟩
  · intro fs path mode url vcr fs2 h
    cases mode with
    | false =>
      cases hs : Fs.statExists fs path with
      | false => simp [NewHttpVcr, hs] at h
      | true =>
        cases hR : NewReplayer fs path with
        | error e => simp [NewHttpVcr, hs, hR] at h
        | ok rp =>
          simp [NewHttpVcr, hs, hR] at h
          obtain ⟨h1, h2⟩ := h
          subst h1
          exact ⟨rfl, rfl, rfl⟩
    | true =>
      cases hs : Fs.statExists fs path with
      | true =>
        by_cases hmem : path ∈ fs.removeFails
        · simp [NewHttpVcr, hs, hmem] at h
        · by_cases hc : path ∈ (Fs.removeFile fs path).createFails
          · simp [NewHttpVcr, hs, hmem, NewRecorder, hc] at h
          · simp [NewHttpVcr, hs, hmem, NewRecorder, hc] at h
            obtain ⟨h1, h2⟩ := h
            subst h1
            exact ⟨rfl, rfl, rfl⟩
      | false =>
        by_cases hc : path ∈ fs.createFails
        · simp [NewHttpVcr, hs, NewRecorder, hc] at h
        · simp [NewHttpVcr, hs, NewRecorder, hc] at h
          obtain ⟨h1, h2⟩ := h
          subst h1
          exact ⟨rfl, rfl, rfl⟩
  · intro v fetch r
    cases hm : v.recordMode with
    | true =>
      cases fetch with
      | error e => simp [handlerStep, hm]
      | ok resp =>
        cases hrec : v.recorder with
        | none => simp [handlerStep, hm, hrec]
        | some rec =>
          cases hw : VcrRecorder.write rec (NewSerializableHttpRequest r)
              (NewSerializableHttpResponse resp) with
          | error e => simp [handlerStep, hm, hrec, hw]
          | ok rec2 => simp [handlerStep, hm, hrec, hw]
    | false =>
      cases hrp : v.replayer with
      | none => simp [handlerStep, hm, hrp]
      | some rp =>
        cases hw : VcrReplayer.write sequentialComparator rp (NewSerializableHttpRequest r) with
        | error e => simp [handlerStep, hm, hrp, hw]
        | ok p =>
          cases p with
          | mk sresp rp2 => simp [handlerStep, hm, hrp, hw]
  · intro v
    cases hrec : v.recorder with
    | none => simp [stopHandlerStep, hrec]
    | some rec => simp [stopHandlerStep, hrec]

/-- C9 witness: record construction over the empty filesystem at `c.yaml`
succeeds and produces `vcrRecBuilt`, whose mode invariant holds. -/
theorem C9_mode_exclusivity_witness :
    vcrRecBuilt.recordMode = true ∧ modeInv vcrRecBuilt :=
  C9_mode_exclusivity.1 fsEmpty "c.yaml" true "https://api.stripe.com"
    vcrRecBuilt fsRecBuilt rfl

/-- C10: every session the constructor returns successfully in REPLAY
mode has a nil recorder, and serving `/vcr/stop` on it dereferences that
nil recorder (a runtime panic) instead of producing an error response or
any state change, because the stop handler calls `recorder.Close()` with
no mode or nil check. -/
theorem C10_stop_nil_recorder_panics :
    ∀ (fs : Fs) (path url : String) (vcr : HttpVcr) (fs2 : Fs),
      NewHttpVcr fs path false url = Except.ok (vcr, fs2) →
      vcr.recorder = none
      ∧ (stopHandlerStep vcr).2 = StopOutcome.nilPanic
      ∧ (stopHandlerStep vcr).1 = vcr := by
  intro fs path url vcr fs2 h
  cases hs : Fs.statExists fs path with
  | false => simp [NewHttpVcr, hs] at h
  | true =>
    cases hR : NewReplayer fs path with
    | error e => simp [NewHttpVcr, hs, hR] at h
    | ok rp =>
      simp [NewHttpVcr, hs, hR] at h
      obtain ⟨h1, h2⟩ := h
      subst h1
      exact ⟨rfl, rfl, rfl⟩

/-- C10 witness: replay construction over `fsReplay` succeeds with a nil
recorder, and `/vcr/stop` on that session is a nil dereference. -/
theorem C10_stop_nil_recorder_panics_witness :
    vcrReplayBuilt.recorder = none
    ∧ (stopHandlerStep vcrReplayBuilt).2 = StopOutcome.nilPanic
    ∧ (stopHandlerStep vcrReplayBuilt).1 = vcrReplayBuilt :=
  C10_stop_nil_recorder_panics fsReplay "c.yaml" "https://api.stripe.com"
    vcrReplayBuilt fsReplay rfl

end StripeVcr
